import Mathlib

/-!
# Verification of `solana-program-deploy-time`

A shallow embedding of the repository's core logic, with theorems checking the
natural-language specification's claims against it.

The repository contains two resolver implementations of the same task:

* `src/src/index.ts`, `getFirstDeploymentTimestamp` — the *strict* walk: pages
  backward through the signature history, fetches every transaction in every
  batch and classifies it with `isProgramDeployment`, stopping at the first
  classified deployment; retries `listSignatures` calls on HTTP 429 with
  exponential backoff (`handleRetryableError`).
* `src/src/index.js`, `getFirstTransactionTimestamp` — the *best-effort* cached
  resolver: pages to the end of the history, takes the last (oldest) signature,
  fetches its block time, and maintains a file cache (`getCachedData`,
  `setCachedData`) keyed by `"timestamp:" ++ programId`.

The embedding models the remote ledger as an environment: a schedule of
`listSignatures` outcomes (a batch, a throttling failure, or another failure)
consumed one per call, and a total `getTx` oracle for `getTransaction`
(`none` models a null response; in the modelled runs transaction fetches do
not throw, failures are exercised on the `listSignatures` calls, which is
where the claims place them). The cache file's content is passed as explicit
state. Console logging, yargs argument parsing and the network client are
outside the embedded core.
-/

namespace SolanaDeployTime

/-- The ledger's fixed loader program identifier
(`BPF_LOADER_PROGRAM_ID`, src/src/index.ts line 16). -/
def BPF_LOADER_PROGRAM_ID : String := "BPFLoader1111111111111111111111111111111111"

/-- `REQUEST_INTERVAL_MS` of src/src/index.ts (8000 ms); it is also the base
delay of the exponential backoff there. -/
def REQUEST_INTERVAL_MS_TS : Nat := 8000

/-- `REQUEST_INTERVAL_MS` of src/src/index.js (6000 ms); also the backoff base. -/
def REQUEST_INTERVAL_MS_JS : Nat := 6000

/-- `MAX_RETRIES` of src/src/index.ts (the `maxRetries` local of
src/src/index.js has the same value 5). -/
def MAX_RETRIES : Nat := 5

/-- One instruction of a transaction: only the identifier of the program that
processes it matters to the classifier (`instruction.programId.toString()`). -/
structure TransactionInstruction where
  programId : String
deriving DecidableEq

/-- The part of a fetched transaction the code reads: its nullable block time
(`blockTime`, `none` models JSON null) and its instruction list
(`transaction.message.instructions`, flattened here). -/
structure TransactionRecord where
  blockTime : Option Int
  instructions : List TransactionInstruction
deriving DecidableEq

/-- `isProgramDeployment` (src/src/index.ts lines 115–122): scans the
instruction list and returns true at the first instruction whose program
identifier equals the loader identifier, false when none matches. -/
def isProgramDeployment (instructions : List TransactionInstruction) : Bool :=
  instructions.any fun instruction => instruction.programId == BPF_LOADER_PROGRAM_ID

/-- The strict walk's per-signature test (src/src/index.ts lines 53–54): fetch
the transaction and classify it; a null response is not a deployment. -/
def txIsDeployment (getTx : σ → Option TransactionRecord) (s : σ) : Bool :=
  match getTx s with
  | some tx => isProgramDeployment tx.instructions
  | none => false

/-! ## The file cache (src/src/index.js lines 19–42) -/

/-- A cache value: `{ blockTime, earliestSignature }` as written by
`setCachedData` at src/src/index.js line 135. `blockTime` is nullable there
(the value assigned is `transactionDetails.blockTime`). -/
structure CacheEntry (σ : Type) where
  blockTime : Option Int
  earliestSignature : σ
deriving DecidableEq

/-- The in-memory image of `cache.json`: a JSON object, i.e. a finite sequence
of key/value pairs with distinct keys arising from assignments. -/
abbrev Cache (σ : Type) := List (String × CacheEntry σ)

/-- `getCachedData` (src/src/index.js lines 32–35): load the cache and return
`cache[key] || null`; the stored values are objects, hence truthy, so this is
the entry when the key is present and null (`none`) otherwise. -/
def getCachedData (cache : Cache σ) (key : String) : Option (CacheEntry σ) :=
  match cache.find? (fun p => p.1 == key) with
  | some p => some p.2
  | none => none

/-- `setCachedData` (src/src/index.js lines 38–42): load the whole cache,
assign `cache[key] = value`, and rewrite the file. A JavaScript object
assignment replaces the value at an existing key and appends a new key
otherwise; every other entry is carried over unchanged. -/
def setCachedData (cache : Cache σ) (key : String) (value : CacheEntry σ) :
    Cache σ :=
  if cache.any (fun p => p.1 == key) then
    cache.map fun p => if p.1 == key then (key, value) else p
  else
    cache ++ [(key, value)]

/-! ## The remote environment -/

/-- The outcome the mocked ledger gives one `listSignatures`
(`connection.getSignaturesForAddress`) call: a batch of signatures
(newest-first, at most 1000), an HTTP 429 throttling error (an error whose
message contains "429"), or any other error. -/
inductive RpcOutcome (σ : Type) where
  | ok (sigs : List σ)
  | throttle
  | err
deriving DecidableEq

/-! ## The strict walk (src/src/index.ts, `getFirstDeploymentTimestamp`) -/

/-- How the strict walk's loop ends. `noDeploymentFound` models the post-loop
`console.error('No deployment transaction found.')` taken when the history is
exhausted with no classified deployment; `fatalThrottle` is the 429 error
rethrown once `retries < MAX_RETRIES` fails; `fatalOther` is a non-429 error
rethrown at once; `outOfSchedule` marks a run that demanded one more remote
call than the mocked schedule provides. -/
inductive StrictResult (σ : Type) where
  | found (sig : σ)
  | noDeploymentFound
  | fatalThrottle
  | fatalOther
  | outOfSchedule
deriving DecidableEq

/-- The observables of one strict walk: the cursor (`before`) of every
`listSignatures` call in order, the backoff delays slept in order, and the
result. -/
structure StrictRun (σ : Type) where
  cursors : List (Option σ)
  backoffDelays : List Nat
  result : StrictResult σ
deriving DecidableEq

/-- The `while (true)` loop of `getFirstDeploymentTimestamp`
(src/src/index.ts lines 42–77), one schedule entry per `listSignatures` call:

* an empty batch breaks the loop, and since `earliestDeploymentSignature` is
  only ever assigned immediately before a break, the post-loop check reports
  `noDeploymentFound`;
* a non-empty batch is scanned signature by signature, fetching each
  transaction and classifying it; the first classified deployment is returned;
  otherwise `before` becomes the batch's last signature and the loop repeats
  (there is no early stop on a batch shorter than 1000);
* a 429 error with `retries < MAX_RETRIES` sleeps
  `2 ^ retries * REQUEST_INTERVAL_MS_TS` and repeats with `retries + 1` and
  the same cursor — `retries` is never reset on success
  (`handleRetryableError`, src/src/index.ts lines 127–136);
* a 429 error with `retries` at the bound, or any other error, is rethrown.

`totalSignaturesFetched` only feeds logging and is omitted. -/
def strictWalk (getTx : σ → Option TransactionRecord) :
    List (RpcOutcome σ) → Option σ → Nat → StrictRun σ
  | [], before, _ => ⟨[before], [], .outOfSchedule⟩
  | .ok sigs :: rest, before, retries =>
    if sigs.isEmpty then ⟨[before], [], .noDeploymentFound⟩
    else
      match sigs.find? (txIsDeployment getTx) with
      | some d => ⟨[before], [], .found d⟩
      | none =>
        let r := strictWalk getTx rest sigs.getLast? retries
        ⟨before :: r.cursors, r.backoffDelays, r.result⟩
  | .throttle :: rest, before, retries =>
    if retries < MAX_RETRIES then
      let r := strictWalk getTx rest before (retries + 1)
      ⟨before :: r.cursors, (2 ^ retries * REQUEST_INTERVAL_MS_TS) :: r.backoffDelays,
        r.result⟩
    else ⟨[before], [], .fatalThrottle⟩
  | .err :: _, before, _ => ⟨[before], [], .fatalOther⟩

/-- The strict resolver's finalize step (`logDeploymentTimestamp`,
src/src/index.ts lines 141–158): refetch the found signature and report its
block time; a null record or null block time is the "Block time is
unavailable" warning (`none`). -/
def strictBlockTime (getTx : σ → Option TransactionRecord) (sig : σ) :
    Option Int :=
  match getTx sig with
  | some tx => tx.blockTime
  | none => none

/-! ## The best-effort walk (src/src/index.js, `getFirstTransactionTimestamp`) -/

/-- How the cached resolver's pagination loop ends: a normal break carrying the
current `earliestSignature` (empty batch after some data, or a batch shorter
than 1000), the "No transactions found" error (empty batch with
`totalSignaturesFetched === 0`), the "Exceeded maximum retries due to 429 Too
Many Requests" error, a rethrown non-429 error, or a demand for one more
remote call than the mocked schedule provides. -/
inductive WalkExit (σ : Type) where
  | exhausted (earliest : Option σ)
  | noTransactionsFound
  | retryExhausted
  | otherError
  | outOfSchedule
deriving DecidableEq

/-- The observables of one pagination loop: the cursor (`before`) of every
`listSignatures` call in order, the backoff delays slept in order, and the
exit. -/
structure WalkRun (σ : Type) where
  cursors : List (Option σ)
  backoffDelays : List Nat
  exit : WalkExit σ
deriving DecidableEq

/-- The `while (true)` loop of `getFirstTransactionTimestamp`
(src/src/index.js lines 74–118), one schedule entry per `listSignatures` call:

* an empty batch breaks with the current `earliestSignature`, except on the
  very first data (`total = 0`) where it throws "No transactions found";
* a non-empty batch sets both `before` and `earliestSignature` to its last
  signature, adds its length to `total`, resets `retries` to 0, and breaks
  when the batch is shorter than 1000;
* a 429 error with `retries < maxRetries` sleeps `2 ^ retries * base` and
  repeats with `retries + 1` and the same cursor;
* a 429 error with `retries` at the bound throws the retries-exceeded error;
  any other error is rethrown at once.

In the source `maxRetries` is the local constant 5 and `base` is
`REQUEST_INTERVAL_MS_JS`; they are parameters here so the backoff claims can
speak about `baseDelay` in general. -/
def walkLoop (maxRetries base : Nat) :
    List (RpcOutcome σ) → Option σ → Option σ → Nat → Nat → WalkRun σ
  | [], before, _, _, _ => ⟨[before], [], .outOfSchedule⟩
  | .ok sigs :: rest, before, earliest, total, _ =>
    if sigs.isEmpty then
      if total == 0 then ⟨[before], [], .noTransactionsFound⟩
      else ⟨[before], [], .exhausted earliest⟩
    else
      if sigs.length < 1000 then ⟨[before], [], .exhausted sigs.getLast?⟩
      else
        let r := walkLoop maxRetries base rest sigs.getLast? sigs.getLast?
          (total + sigs.length) 0
        ⟨before :: r.cursors, r.backoffDelays, r.exit⟩
  | .throttle :: rest, before, earliest, total, retries =>
    if retries < maxRetries then
      let r := walkLoop maxRetries base rest before earliest total (retries + 1)
      ⟨before :: r.cursors, (2 ^ retries * base) :: r.backoffDelays, r.exit⟩
    else ⟨[before], [], .retryExhausted⟩
  | .err :: _, before, _, _, _ => ⟨[before], [], .otherError⟩

/-! ## The cached resolver (src/src/index.js, lines 44–161) -/

/-- How one invocation of the cached resolver fails, mirroring its thrown
errors: the four loop errors, "Unable to fetch transaction details." (a null
`getTransaction` response for the chosen signature), and "Block time is
unavailable." -/
inductive ResolveError where
  | noTransactionsFound
  | retryExhausted
  | otherError
  | outOfSchedule
  | txDetailsUnavailable
  | blockTimeUnavailable
deriving DecidableEq

/-- What one invocation of the cached resolver reports: on success the
resolved block time and the `earliestSignature` the Solscan link renders, on
failure the error printed by the outer catch. -/
inductive ResolveOutcome (σ : Type) where
  | ok (blockTime : Int) (earliestSignature : Option σ)
  | error (e : ResolveError)
deriving DecidableEq

/-- The observables of one invocation of the cached resolver: the cursors of
its `listSignatures` calls, how many `getTransaction` calls it made, the
backoff delays, the cache file's content after the run, and the reported
result — on success the resolved block time and the `earliestSignature` the
Solscan link renders. -/
structure ResolveRun (σ : Type) where
  listCursors : List (Option σ)
  txFetches : Nat
  backoffDelays : List Nat
  cacheAfter : Cache σ
  result : ResolveOutcome σ
deriving DecidableEq

/-- JavaScript truthiness of the nullable `blockTime` read from the cache
(src/src/index.js line 53, `if (blockTime && !forceRefresh)`): null and
undefined are falsy, and so is the number 0. -/
def jsTruthy : Option Int → Bool
  | some t => t != 0
  | none => false

/-- `getFirstTransactionTimestamp` (src/src/index.js lines 44–161) without its
logging and timestamp rendering:

1. read `cacheData` for key `"timestamp:" ++ programId`, initializing
   `blockTime` and `earliestSignature` from it (null when absent);
2. when `blockTime` is truthy and `forceRefresh` is false, skip all remote
   work and the cache write;
3. otherwise run the pagination loop (`walkLoop` with `maxRetries = 5` and
   base `REQUEST_INTERVAL_MS_JS`), seeding `earliestSignature` from the
   cache; loop errors propagate to the outer catch;
4. when the loop exits normally with a signature, fetch that transaction
   (one `getTransaction` call); a null response throws; otherwise take its
   `blockTime` and, when it differs (JavaScript `!==`) from the currently
   cached `blockTime` — in particular whenever the entry is absent — write
   `{ blockTime, earliestSignature }` through `setCachedData`; this write
   happens before any null check on `blockTime`;
5. finally, a null `blockTime` throws "Block time is unavailable.",
   otherwise the pair is reported.

The `!==` of step 4 compares the fetched nullable `blockTime` with
`getCachedData(cacheKey)?.blockTime`, whose value is undefined when the entry
is absent; the two sides are equal exactly when an entry is present and its
stored nullable `blockTime` is the fetched one. -/
def getFirstTransactionTimestamp (getTx : σ → Option TransactionRecord)
    (sched : List (RpcOutcome σ)) (cache0 : Cache σ)
    (programId : String) (forceRefresh : Bool) : ResolveRun σ :=
  let cacheKey := "timestamp:" ++ programId
  let cacheData := getCachedData cache0 cacheKey
  let blockTime0 : Option Int :=
    match cacheData with
    | some e => e.blockTime
    | none => none
  let earliest0 : Option σ :=
    match cacheData with
    | some e => some e.earliestSignature
    | none => none
  if jsTruthy blockTime0 && !forceRefresh then
    match blockTime0 with
    | none => ⟨[], 0, [], cache0, ResolveOutcome.error .blockTimeUnavailable⟩
    | some t => ⟨[], 0, [], cache0, ResolveOutcome.ok t earliest0⟩
  else
    let run := walkLoop 5 REQUEST_INTERVAL_MS_JS sched none earliest0 0 0
    match run.exit with
    | .exhausted (some e) =>
      match getTx e with
      | none =>
        ⟨run.cursors, 1, run.backoffDelays, cache0, ResolveOutcome.error .txDetailsUnavailable⟩
      | some tx =>
        let bt := tx.blockTime
        let cachedBT : Option (Option Int) :=
          (getCachedData cache0 cacheKey).map (·.blockTime)
        let cache1 :=
          if cachedBT = some bt then cache0
          else setCachedData cache0 cacheKey ⟨bt, e⟩
        match bt with
        | none =>
          ⟨run.cursors, 1, run.backoffDelays, cache1, ResolveOutcome.error .blockTimeUnavailable⟩
        | some t => ⟨run.cursors, 1, run.backoffDelays, cache1, ResolveOutcome.ok t (some e)⟩
    | .exhausted none =>
      match blockTime0 with
      | none => ⟨run.cursors, 0, run.backoffDelays, cache0, ResolveOutcome.error .blockTimeUnavailable⟩
      | some t => ⟨run.cursors, 0, run.backoffDelays, cache0, ResolveOutcome.ok t earliest0⟩
    | .noTransactionsFound =>
      ⟨run.cursors, 0, run.backoffDelays, cache0, ResolveOutcome.error .noTransactionsFound⟩
    | .retryExhausted =>
      ⟨run.cursors, 0, run.backoffDelays, cache0, ResolveOutcome.error .retryExhausted⟩
    | .otherError =>
      ⟨run.cursors, 0, run.backoffDelays, cache0, ResolveOutcome.error .otherError⟩
    | .outOfSchedule =>
      ⟨run.cursors, 0, run.backoffDelays, cache0, ResolveOutcome.error .outOfSchedule⟩

/-! ## Concrete mocked environments

Signatures are modelled as natural numbers: the walks never inspect a
signature's contents, they only carry it as an opaque cursor, so any type with
decidable equality is a faithful stand-in for the base-58 strings. Histories
are newest-first, exactly as `getSignaturesForAddress` returns them. -/

/-- First batch of the mocked 3224-signature history (newest 1000). -/
def batch1 : List Nat := List.range 1000

/-- Second batch of the mocked history. -/
def batch2 : List Nat := List.range' 1000 1000

/-- Third batch of the mocked history. -/
def batch3 : List Nat := List.range' 2000 1000

/-- Final short batch of the mocked history (224 signatures, the oldest). -/
def batch4 : List Nat := List.range' 3000 224

/-- A `getTransaction` oracle under which every transaction carries one
instruction targeting the loader, so every transaction classifies as a
deployment. -/
def allDeployTx : Nat → Option TransactionRecord :=
  fun _ => some ⟨some 1, [⟨BPF_LOADER_PROGRAM_ID⟩]⟩

/-- A `getTransaction` oracle under which only signature 0 (the newest) is a
deployment; every other transaction has no instructions. -/
def newestDeployTx : Nat → Option TransactionRecord :=
  fun s => if s = 0 then some ⟨some 1, [⟨BPF_LOADER_PROGRAM_ID⟩]⟩
    else some ⟨some 1, []⟩

/-- A `getTransaction` oracle under which only signature 2 is a deployment. -/
def onlyTwoDeployTx : Nat → Option TransactionRecord :=
  fun s => if s = 2 then some ⟨some 9, [⟨BPF_LOADER_PROGRAM_ID⟩]⟩
    else some ⟨some 9, []⟩

/-- A `getTransaction` oracle that answers null for every signature; nothing
classifies as a deployment. -/
def noTx : Nat → Option TransactionRecord := fun _ => none

/-! ## Lemmas about the cache -/

/-- Specialization of `List.find?_cons_of_pos` to the key-lookup predicate. -/
theorem find?_cons_keyEq (e : String × CacheEntry σ)
    (l : List (String × CacheEntry σ)) (k : String) (h : (e.1 == k) = true) :
    List.find? (fun r => r.1 == k) (e :: l) = some e :=
  List.find?_cons_of_pos l h

/-- Specialization of `List.find?_cons_of_neg` to the key-lookup predicate. -/
theorem find?_cons_keyNe (e : String × CacheEntry σ)
    (l : List (String × CacheEntry σ)) (k : String) (h : ¬((e.1 == k) = true)) :
    List.find? (fun r => r.1 == k) (e :: l) = List.find? (fun r => r.1 == k) l :=
  List.find?_cons_of_neg l h

/-- Replacing the value at key `k` throughout the list puts `(k, v)` where the
first occurrence of `k` was. -/
theorem find?_map_replaceKey (c : Cache σ) (k : String) (v : CacheEntry σ)
    (h : c.any (fun r => r.1 == k) = true) :
    (c.map fun r => if r.1 == k then (k, v) else r).find? (fun r => r.1 == k) =
      some (k, v) := by
  induction c with
  | nil => simp at h
  | cons e c ih =>
    rw [List.map_cons]
    by_cases he : e.1 = k
    · rw [if_pos (show (e.1 == k) = true by simpa using he)]
      exact find?_cons_keyEq _ _ _ (by simp)
    · have hef : ¬((e.1 == k) = true) := by simpa using he
      have htail : c.any (fun r => r.1 == k) = true := by
        rcases (List.any_eq_true.mp h) with ⟨x, hx, hxk⟩
        rcases List.mem_cons.mp hx with hx | hx
        · exact absurd (show e.1 = k by rw [hx] at hxk; simpa using hxk) he
        · exact List.any_eq_true.mpr ⟨x, hx, hxk⟩
      rw [if_neg hef, find?_cons_keyNe _ _ _ hef]
      exact ih htail

/-- Replacing the value at key `p` does not move or change the first entry at
any other key `q`. -/
theorem find?_map_replaceKey_ne (c : Cache σ) (p q : String) (v : CacheEntry σ)
    (h : p ≠ q) :
    (c.map fun r => if r.1 == p then (p, v) else r).find? (fun r => r.1 == q) =
      c.find? (fun r => r.1 == q) := by
  induction c with
  | nil => simp
  | cons e c ih =>
    rw [List.map_cons]
    by_cases hep : e.1 = p
    · have heq : ¬((e.1 == q) = true) := by
        rw [hep]; simpa using h
      rw [if_pos (show (e.1 == p) = true by simpa using hep)]
      rw [find?_cons_keyNe _ _ _
          (show ¬(((p, v) : String × CacheEntry σ).1 == q) = true by simpa using h),
        find?_cons_keyNe _ _ _ heq]
      exact ih
    · rw [if_neg (show ¬((e.1 == p) = true) by simpa using hep)]
      by_cases heq : e.1 = q
      · rw [find?_cons_keyEq _ _ _ (by simpa using heq),
          find?_cons_keyEq _ _ _ (by simpa using heq)]
      · rw [find?_cons_keyNe _ _ _ (by simpa using heq),
          find?_cons_keyNe _ _ _ (by simpa using heq)]
        exact ih

theorem getCachedData_setCachedData_self (c : Cache σ) (k : String)
    (v : CacheEntry σ) : getCachedData (setCachedData c k v) k = some v := by
  rw [setCachedData]
  by_cases h : c.any (fun r => r.1 == k) = true
  · rw [if_pos h, getCachedData, find?_map_replaceKey c k v h]
  · have hfalse : c.any (fun r => r.1 == k) = false := Bool.eq_false_iff.mpr h
    have hnone : c.find? (fun r => r.1 == k) = none :=
      List.find?_eq_none.mpr (List.any_eq_false.mp hfalse)
    rw [if_neg h, getCachedData, List.find?_append, hnone]
    simp

theorem getCachedData_setCachedData_ne (c : Cache σ) (p q : String)
    (v : CacheEntry σ) (h : p ≠ q) :
    getCachedData (setCachedData c p v) q = getCachedData c q := by
  rw [setCachedData]
  by_cases hyes : c.any (fun r => r.1 == p) = true
  · rw [if_pos hyes, getCachedData, getCachedData,
      find?_map_replaceKey_ne c p q v h]
  · have hpq : (p == q) = false := by simpa using h
    rw [if_neg hyes, getCachedData, getCachedData, List.find?_append]
    cases hc : c.find? (fun r => r.1 == q) <;> simp [hpq]

/-- A key at which no entry sits reads back as null. -/
theorem getCachedData_eq_none_of_not_mem (c : Cache σ) (k : String)
    (h : ∀ e ∈ c, e.1 ≠ k) : getCachedData c k = none := by
  rw [getCachedData]
  have hnone : c.find? (fun r => r.1 == k) = none := by
    refine List.find?_eq_none.mpr ?_
    intro x hx hxk
    exact h x hx (by simpa using hxk)
  rw [hnone]

/-! ## Step lemmas for the two pagination loops -/

theorem walkLoop_nil (maxRetries base : Nat) (before earliest : Option σ)
    (total retries : Nat) :
    walkLoop maxRetries base [] before earliest total retries =
      ⟨[before], [], .outOfSchedule⟩ := rfl

theorem walkLoop_ok_empty_first (maxRetries base : Nat)
    (rest : List (RpcOutcome σ)) (before earliest : Option σ) (retries : Nat) :
    walkLoop maxRetries base (.ok [] :: rest) before earliest 0 retries =
      ⟨[before], [], .noTransactionsFound⟩ := rfl

theorem walkLoop_ok_empty_later (maxRetries base : Nat)
    (rest : List (RpcOutcome σ)) (before earliest : Option σ)
    (total retries : Nat) (h : total ≠ 0) :
    walkLoop maxRetries base (.ok [] :: rest) before earliest total retries =
      ⟨[before], [], .exhausted earliest⟩ := by
  have hbe : (total == 0) = false := by simpa using h
  simp [walkLoop, hbe]

theorem walkLoop_ok_small (maxRetries base : Nat) (sigs : List σ)
    (rest : List (RpcOutcome σ)) (before earliest : Option σ)
    (total retries : Nat) (hne : sigs ≠ []) (hlen : sigs.length < 1000) :
    walkLoop maxRetries base (.ok sigs :: rest) before earliest total retries =
      ⟨[before], [], .exhausted sigs.getLast?⟩ := by
  have hempty : sigs.isEmpty = false := List.isEmpty_eq_false.mpr hne
  simp [walkLoop, hempty, hlen]

theorem walkLoop_ok_full (maxRetries base : Nat) (sigs : List σ)
    (rest : List (RpcOutcome σ)) (before earliest : Option σ)
    (total retries : Nat) (hne : sigs ≠ []) (hlen : ¬(sigs.length < 1000)) :
    walkLoop maxRetries base (.ok sigs :: rest) before earliest total retries =
      ⟨before ::
          (walkLoop maxRetries base rest sigs.getLast? sigs.getLast?
            (total + sigs.length) 0).cursors,
        (walkLoop maxRetries base rest sigs.getLast? sigs.getLast?
          (total + sigs.length) 0).backoffDelays,
        (walkLoop maxRetries base rest sigs.getLast? sigs.getLast?
          (total + sigs.length) 0).exit⟩ := by
  have hempty : sigs.isEmpty = false := List.isEmpty_eq_false.mpr hne
  simp [walkLoop, hempty, hlen]

theorem walkLoop_throttle_lt (maxRetries base : Nat)
    (rest : List (RpcOutcome σ)) (before earliest : Option σ)
    (total retries : Nat) (h : retries < maxRetries) :
    walkLoop maxRetries base (.throttle :: rest) before earliest total retries =
      ⟨before ::
          (walkLoop maxRetries base rest before earliest total (retries + 1)).cursors,
        (2 ^ retries * base) ::
          (walkLoop maxRetries base rest before earliest total
            (retries + 1)).backoffDelays,
        (walkLoop maxRetries base rest before earliest total (retries + 1)).exit⟩ := by
  simp [walkLoop, h]

theorem walkLoop_throttle_ge (maxRetries base : Nat)
    (rest : List (RpcOutcome σ)) (before earliest : Option σ)
    (total retries : Nat) (h : ¬(retries < maxRetries)) :
    walkLoop maxRetries base (.throttle :: rest) before earliest total retries =
      ⟨[before], [], .retryExhausted⟩ := by
  simp [walkLoop, h]

theorem walkLoop_err (maxRetries base : Nat) (rest : List (RpcOutcome σ))
    (before earliest : Option σ) (total retries : Nat) :
    walkLoop maxRetries base (.err :: rest) before earliest total retries =
      ⟨[before], [], .otherError⟩ := rfl

theorem strictWalk_nil (getTx : σ → Option TransactionRecord)
    (before : Option σ) (retries : Nat) :
    strictWalk getTx [] before retries = ⟨[before], [], .outOfSchedule⟩ := rfl

theorem strictWalk_ok_empty (getTx : σ → Option TransactionRecord)
    (rest : List (RpcOutcome σ)) (before : Option σ) (retries : Nat) :
    strictWalk getTx (.ok [] :: rest) before retries =
      ⟨[before], [], .noDeploymentFound⟩ := rfl

theorem strictWalk_ok_found (getTx : σ → Option TransactionRecord)
    (sigs : List σ) (rest : List (RpcOutcome σ)) (before : Option σ)
    (retries : Nat) (d : σ) (hne : sigs ≠ [])
    (hfind : sigs.find? (txIsDeployment getTx) = some d) :
    strictWalk getTx (.ok sigs :: rest) before retries =
      ⟨[before], [], .found d⟩ := by
  have hempty : sigs.isEmpty = false := List.isEmpty_eq_false.mpr hne
  simp [strictWalk, hempty, hfind]

theorem strictWalk_ok_none (getTx : σ → Option TransactionRecord)
    (sigs : List σ) (rest : List (RpcOutcome σ)) (before : Option σ)
    (retries : Nat) (hne : sigs ≠ [])
    (hfind : sigs.find? (txIsDeployment getTx) = none) :
    strictWalk getTx (.ok sigs :: rest) before retries =
      ⟨before :: (strictWalk getTx rest sigs.getLast? retries).cursors,
        (strictWalk getTx rest sigs.getLast? retries).backoffDelays,
        (strictWalk getTx rest sigs.getLast? retries).result⟩ := by
  have hempty : sigs.isEmpty = false := List.isEmpty_eq_false.mpr hne
  simp [strictWalk, hempty, hfind]

theorem strictWalk_throttle_lt (getTx : σ → Option TransactionRecord)
    (rest : List (RpcOutcome σ)) (before : Option σ) (retries : Nat)
    (h : retries < MAX_RETRIES) :
    strictWalk getTx (.throttle :: rest) before retries =
      ⟨before :: (strictWalk getTx rest before (retries + 1)).cursors,
        (2 ^ retries * REQUEST_INTERVAL_MS_TS) ::
          (strictWalk getTx rest before (retries + 1)).backoffDelays,
        (strictWalk getTx rest before (retries + 1)).result⟩ := by
  simp [strictWalk, h]

theorem strictWalk_throttle_ge (getTx : σ → Option TransactionRecord)
    (rest : List (RpcOutcome σ)) (before : Option σ) (retries : Nat)
    (h : ¬(retries < MAX_RETRIES)) :
    strictWalk getTx (.throttle :: rest) before retries =
      ⟨[before], [], .fatalThrottle⟩ := by
  simp [strictWalk, h]

theorem strictWalk_err (getTx : σ → Option TransactionRecord)
    (rest : List (RpcOutcome σ)) (before : Option σ) (retries : Nat) :
    strictWalk getTx (.err :: rest) before retries =
      ⟨[before], [], .fatalOther⟩ := rfl

/-! ## The claims -/

/-- C9: `isProgramDeployment` returns true exactly when at least one
instruction of the record targets the ledger's loader program identifier, and
in particular returns false on an empty instruction list. As a Lean function
of the instruction list it is pure by construction, matching the source,
which only reads its argument. -/
theorem isProgramDeployment_iff_loader_instruction :
    (∀ instructions : List TransactionInstruction,
        isProgramDeployment instructions = true ↔
          ∃ i ∈ instructions, i.programId = BPF_LOADER_PROGRAM_ID) ∧
      isProgramDeployment [] = false := by
  refine ⟨fun instructions => ?_, rfl⟩
  simp [isProgramDeployment, List.any_eq_true]

/-- C8: writing `{blockTime := T, earliestSignature := S}` at key `P` and
reading `P` back returns exactly that entry, and reading a key at which no
entry was ever written returns null (absent). -/
theorem cache_roundtrip :
    (∀ (σ : Type) (c : Cache σ) (k : String) (v : CacheEntry σ),
        getCachedData (setCachedData c k v) k = some v) ∧
      ∀ (σ : Type) (c : Cache σ) (k : String),
        (∀ e ∈ c, e.1 ≠ k) → getCachedData c k = none :=
  ⟨fun _ c k v => getCachedData_setCachedData_self c k v,
    fun _ c k h => getCachedData_eq_none_of_not_mem c k h⟩

/-- C8 witness: a concrete round-trip and a concrete read of an unwritten
key, both through `cache_roundtrip`. -/
theorem cache_roundtrip_witness :
    getCachedData (setCachedData [] "timestamp:P" ⟨some 7, (3 : Nat)⟩)
        "timestamp:P" = some ⟨some 7, 3⟩ ∧
      getCachedData [("timestamp:P", (⟨some 7, 3⟩ : CacheEntry Nat))]
        "timestamp:Q" = none :=
  ⟨cache_roundtrip.1 Nat [] "timestamp:P" ⟨some 7, 3⟩,
    cache_roundtrip.2 Nat [("timestamp:P", ⟨some 7, 3⟩)] "timestamp:Q"
      (by decide)⟩

/-- C10: `setCachedData` rewrites the whole cache but changes only the entry
at the written key: reading any other key afterwards gives exactly what it
gave before. -/
theorem setCachedData_preserves_other_keys :
    ∀ (σ : Type) (c : Cache σ) (p q : String) (v : CacheEntry σ), p ≠ q →
      getCachedData (setCachedData c p v) q = getCachedData c q :=
  fun _ c p q v h => getCachedData_setCachedData_ne c p q v h

/-- C10 witness: a concrete write to one key leaving the other key's entry
readable unchanged, through `setCachedData_preserves_other_keys`. -/
theorem setCachedData_preserves_other_keys_witness :
    getCachedData
        (setCachedData [("timestamp:A", ⟨some 1, (10 : Nat)⟩)] "timestamp:B"
          ⟨some 2, 20⟩) "timestamp:A" = some ⟨some 1, 10⟩ := by
  rw [setCachedData_preserves_other_keys Nat [("timestamp:A", ⟨some 1, 10⟩)]
    "timestamp:B" "timestamp:A" ⟨some 2, 20⟩ (by decide)]
  decide

/-- C7 (amended): the cached short-circuit requires a *truthy* cached
`blockTime` — non-null and non-zero — because the guard at
src/src/index.js line 53 is `if (blockTime && !forceRefresh)`. Under that
condition and `forceRefresh = false` the resolver reports the cached pair,
issues zero remote calls, and leaves the cache file untouched. -/
theorem cache_hit_short_circuit :
    ∀ (σ : Type) (getTx : σ → Option TransactionRecord)
      (sched : List (RpcOutcome σ)) (cache : Cache σ) (programId : String)
      (t : Int) (sig : σ),
      getCachedData cache ("timestamp:" ++ programId) = some ⟨some t, sig⟩ →
      t ≠ 0 →
      getFirstTransactionTimestamp getTx sched cache programId false =
        ⟨[], 0, [], cache, ResolveOutcome.ok t (some sig)⟩ := by
  intro σ getTx sched cache programId t sig hget ht
  have htruthy : jsTruthy (some t) = true := by simp [jsTruthy, ht]
  simp [getFirstTransactionTimestamp, hget, htruthy]

/-- C7 witness: a concrete cache hit at blockTime 5 answered with zero remote
calls, through `cache_hit_short_circuit`. -/
theorem cache_hit_short_circuit_witness :
    getFirstTransactionTimestamp noTx [] [("timestamp:P", ⟨some 5, 3⟩)] "P"
        false =
      ⟨[], 0, [], [("timestamp:P", ⟨some 5, 3⟩)], ResolveOutcome.ok 5 (some 3)⟩ :=
  cache_hit_short_circuit Nat noTx [] [("timestamp:P", ⟨some 5, 3⟩)] "P" 5 3
    (by decide) (by decide)

/-- C7 counterexample: a cache entry with the non-null blockTime 0 (which the
claim explicitly includes) does NOT short-circuit: `0` is falsy in
JavaScript, so with `forceRefresh = false` the resolver still issues one
`listSignatures` call and one `getTransaction` call, overwrites the entry,
and reports the freshly resolved pair (5, signature 3) instead of the cached
(0, signature 7). -/
theorem zero_blockTime_cache_entry_not_used_cex :
    getFirstTransactionTimestamp (fun _ : Nat => some ⟨some 5, []⟩) [.ok [3]]
        [("timestamp:P", ⟨some 0, 7⟩)] "P" false =
      ⟨[none], 1, [], [("timestamp:P", ⟨some 5, 3⟩)],
        ResolveOutcome.ok 5 (some 3)⟩ := by
  decide

/-- C2 evaluated at the failing input: cache initially empty, a one-signature
history, and a transaction record whose `blockTime` is null. The resolver
reports "Block time is unavailable." — but it has already written
`{blockTime: null, earliestSignature: 3}` into the cache, because the write
(guarded only by `blockTime !== getCachedData(cacheKey)?.blockTime`, and
null !== undefined) happens before the null check. The claim (and the spec's
"No partial results are cached") says no cache write happens here. -/
theorem null_blockTime_cache_write_at_failing_input :
    getFirstTransactionTimestamp (fun _ : Nat => some ⟨none, []⟩) [.ok [3]] []
        "P" false =
      ⟨[none], 1, [], [("timestamp:P", ⟨none, 3⟩)],
        ResolveOutcome.error .blockTimeUnavailable⟩ := by
  decide

/-- C5 (amended): an empty very first batch stops both implementations after
exactly that one `listSignatures` call, with no further remote calls; the
cached best-effort resolver fails with "No transactions found" as the claim
says, while the strict resolver instead reports "No deployment transaction
found." -/
theorem empty_first_batch_no_transactions_found :
    (∀ (σ : Type) (getTx : σ → Option TransactionRecord)
        (rest : List (RpcOutcome σ)) (programId : String),
        getFirstTransactionTimestamp getTx (.ok [] :: rest) [] programId
            false =
          ⟨[none], 0, [], [], ResolveOutcome.error .noTransactionsFound⟩) ∧
      ∀ (σ : Type) (getTx : σ → Option TransactionRecord)
        (rest : List (RpcOutcome σ)),
        strictWalk getTx (.ok [] :: rest) none 0 =
          ⟨[none], [], .noDeploymentFound⟩ :=
  ⟨fun _ _ _ _ => rfl, fun _ _ _ => rfl⟩

/-- C5 counterexample: the strict implementation on an empty very first batch
reports "No deployment transaction found." (`noDeploymentFound`) — not the
claim's `NoTransactionsFound`, which only the cached best-effort resolver
raises; its loop has no empty-first-batch error at all. -/
theorem strict_empty_first_batch_reports_no_deployment_cex :
    strictWalk noTx [.ok []] none 0 = ⟨[none], [], .noDeploymentFound⟩ := by
  decide

/-- C3 (amended): with the default bound of 5 *retries*, exhaustion takes SIX
consecutive throttling failures — the initial attempt plus five retries, with
the five backoff delays `base * 2 ^ 0 .. base * 2 ^ 4` — after which no
further remote call is issued (the rest of the schedule is untouched), in
both implementations; a non-throttling failure propagates immediately with no
retry, again in both. After only five consecutive throttling failures the
walk still issues a sixth call (see the counterexample). -/
theorem retry_exhaustion_after_six_throttles :
    (∀ (σ : Type) (base : Nat) (rest : List (RpcOutcome σ))
        (before earliest : Option σ) (total : Nat),
        walkLoop 5 base (List.replicate 6 .throttle ++ rest) before earliest
            total 0 =
          ⟨List.replicate 6 before,
            [2 ^ 0 * base, 2 ^ 1 * base, 2 ^ 2 * base, 2 ^ 3 * base,
              2 ^ 4 * base],
            .retryExhausted⟩) ∧
      (∀ (σ : Type) (getTx : σ → Option TransactionRecord)
          (rest : List (RpcOutcome σ)) (before : Option σ),
          strictWalk getTx (List.replicate 6 .throttle ++ rest) before 0 =
            ⟨List.replicate 6 before,
              [8000, 16000, 32000, 64000, 128000], .fatalThrottle⟩) ∧
      (∀ (σ : Type) (base : Nat) (rest : List (RpcOutcome σ))
          (before earliest : Option σ) (total retries : Nat),
          walkLoop 5 base (.err :: rest) before earliest total retries =
            ⟨[before], [], .otherError⟩) ∧
      ∀ (σ : Type) (getTx : σ → Option TransactionRecord)
        (rest : List (RpcOutcome σ)) (before : Option σ) (retries : Nat),
        strictWalk getTx (.err :: rest) before retries =
          ⟨[before], [], .fatalOther⟩ :=
  ⟨fun _ _ _ _ _ _ => rfl, fun _ _ _ _ => rfl, fun _ _ _ _ _ _ _ => rfl,
    fun _ _ _ _ _ => rfl⟩

/-- C3 counterexample: five consecutive throttling failures do NOT exhaust
the retries. With the schedule "throttle five times, then a one-signature
batch", the walk issues a SIXTH `listSignatures` call (six cursors recorded)
and succeeds, where the claim says it fails with `ThrottlingRetryExhausted`
after the fifth and issues no further calls. The guard is
`retries < maxRetries` with `retries` incremented after each throttled
attempt, so exhaustion is only thrown on the sixth consecutive failure. -/
theorem five_throttles_do_not_exhaust_cex :
    walkLoop 5 6000 (List.replicate 5 .throttle ++ [.ok [(3 : Nat)]]) none none
        0 0 =
      ⟨[none, none, none, none, none, none],
        [6000, 12000, 24000, 48000, 96000], .exhausted (some 3)⟩ := by
  decide

/-- C6 (amended): in the cached best-effort resolver the claim holds exactly:
throttling on the first two attempts followed by success produces precisely
the two backoff delays `base * 2 ^ 0` and `base * 2 ^ 1` and the walk then
exits as it would have with no failure at all; a successful full batch resets
the retry counter to 0 (the recursion proceeds with counter 0 whatever it
was); and each backoff delay is `base * 2 ^ retries`. The reset clause fails
in the strict implementation — see the counterexample. -/
theorem backoff_delay_schedule_and_reset :
    (∀ (σ : Type) (base : Nat) (b : List σ) (rest : List (RpcOutcome σ))
        (earliest : Option σ),
        b ≠ [] → b.length < 1000 →
        walkLoop 5 base (.throttle :: .throttle :: .ok b :: rest) none earliest
            0 0 =
          ⟨[none, none, none], [2 ^ 0 * base, 2 ^ 1 * base],
            .exhausted b.getLast?⟩ ∧
          (walkLoop 5 base (.throttle :: .throttle :: .ok b :: rest) none
              earliest 0 0).exit =
            (walkLoop 5 base (.ok b :: rest) none earliest 0 0).exit) ∧
      (∀ (σ : Type) (base : Nat) (b : List σ) (rest : List (RpcOutcome σ))
          (before earliest : Option σ) (total retries : Nat),
          b ≠ [] → ¬(b.length < 1000) →
          walkLoop 5 base (.ok b :: rest) before earliest total retries =
            ⟨before ::
                (walkLoop 5 base rest b.getLast? b.getLast?
                  (total + b.length) 0).cursors,
              (walkLoop 5 base rest b.getLast? b.getLast?
                (total + b.length) 0).backoffDelays,
              (walkLoop 5 base rest b.getLast? b.getLast?
                (total + b.length) 0).exit⟩) ∧
      ∀ (σ : Type) (base : Nat) (rest : List (RpcOutcome σ))
        (before earliest : Option σ) (total retries : Nat),
        retries < 5 →
        (walkLoop 5 base (.throttle :: rest) before earliest total
            retries).backoffDelays =
          2 ^ retries * base ::
            (walkLoop 5 base rest before earliest total
              (retries + 1)).backoffDelays := by
  refine ⟨?_, ?_, ?_⟩
  · intro σ base b rest earliest hne hlen
    rw [walkLoop_throttle_lt 5 base _ none earliest 0 0 (by omega),
      walkLoop_throttle_lt 5 base _ none earliest 0 1 (by omega),
      walkLoop_ok_small 5 base b rest none earliest 0 2 hne hlen,
      walkLoop_ok_small 5 base b rest none earliest 0 0 hne hlen]
    exact ⟨rfl, rfl⟩
  · intro σ base b rest before earliest total retries hne hlen
    exact walkLoop_ok_full 5 base b rest before earliest total retries hne hlen
  · intro σ base rest before earliest total retries h
    rw [walkLoop_throttle_lt 5 base rest before earliest total retries h]

/-- C6 witness: the claim's concrete scenario through
`backoff_delay_schedule_and_reset`: throttle twice, then a short successful
batch, giving exactly the delays 6000·2⁰ and 6000·2¹ and the same exit as the
failure-free walk. -/
theorem backoff_delay_schedule_and_reset_witness :
    walkLoop 5 6000 [.throttle, .throttle, .ok [(3 : Nat)]] none none 0 0 =
      ⟨[none, none, none], [2 ^ 0 * 6000, 2 ^ 1 * 6000],
        .exhausted (some 3)⟩ ∧
      (walkLoop 5 6000 [.throttle, .throttle, .ok [(3 : Nat)]] none none
          0 0).exit =
        (walkLoop 5 6000 [.ok [(3 : Nat)]] none none 0 0).exit :=
  backoff_delay_schedule_and_reset.1 Nat 6000 [3] [] none (by decide)
    (by decide)

set_option maxRecDepth 40000 in
/-- C6 counterexample: the strict implementation never resets `retries` after
a successful call. Schedule: throttle, a successful full batch of 1000,
throttle, a successful short batch, end of history. The claim's rule —
counter reset on success, delay `base * 2 ^ attempt` per call — predicts two
delays of 8000 · 2⁰ = 8000 each; the code sleeps 8000 then 16000, because the
second throttle (the first failure of its own call) still sees
`retries = 1` from before the success. -/
theorem strict_retry_counter_not_reset_cex :
    (strictWalk noTx [.throttle, .ok batch1, .throttle, .ok [1500], .ok []]
        none 0).backoffDelays = [8000, 16000] ∧
      (16000 : Nat) ≠ 2 ^ 0 * 8000 := by
  refine ⟨by decide, by decide⟩

/-- C4 (amended): the cursor chain of the claim holds, and in the cached
best-effort resolver so does the call count: on three full batches and a
final batch of 224 its walk makes exactly 4 `listSignatures` calls, the
cursor of call n+1 being the last signature of call n's batch, and a batch
shorter than 1000 ends the walk with no further call. The strict
implementation has no shorter-than-1000 stop: on the same history, with no
transaction classifying as a deployment, it makes a FIFTH call (cursor: the
224th batch's last signature), which returns the empty batch that ends it. -/
theorem pagination_four_batches_cursor_chain :
    (∀ (σ : Type) (base : Nat) (b1 b2 b3 b4 : List σ)
        (rest : List (RpcOutcome σ)) (earliest : Option σ),
        b1.length = 1000 → b2.length = 1000 → b3.length = 1000 →
        b4.length = 224 →
        walkLoop 5 base (.ok b1 :: .ok b2 :: .ok b3 :: .ok b4 :: rest) none
            earliest 0 0 =
          ⟨[none, b1.getLast?, b2.getLast?, b3.getLast?], [],
            .exhausted b4.getLast?⟩) ∧
      (∀ (σ : Type) (base : Nat) (b : List σ) (rest : List (RpcOutcome σ))
          (before earliest : Option σ) (total retries : Nat),
          b ≠ [] → b.length < 1000 →
          walkLoop 5 base (.ok b :: rest) before earliest total retries =
            ⟨[before], [], .exhausted b.getLast?⟩) ∧
      ∀ (σ : Type) (getTx : σ → Option TransactionRecord) (b1 b2 b3 b4 : List σ),
        (∀ s, txIsDeployment getTx s = false) →
        b1.length = 1000 → b2.length = 1000 → b3.length = 1000 →
        b4.length = 224 →
        strictWalk getTx [.ok b1, .ok b2, .ok b3, .ok b4, .ok []] none 0 =
          ⟨[none, b1.getLast?, b2.getLast?, b3.getLast?, b4.getLast?], [],
            .noDeploymentFound⟩ := by
  refine ⟨?_, ?_, ?_⟩
  · intro σ base b1 b2 b3 b4 rest earliest h1 h2 h3 h4
    have hne1 : b1 ≠ [] := by intro hnil; rw [hnil] at h1; simp at h1
    have hne2 : b2 ≠ [] := by intro hnil; rw [hnil] at h2; simp at h2
    have hne3 : b3 ≠ [] := by intro hnil; rw [hnil] at h3; simp at h3
    have hne4 : b4 ≠ [] := by intro hnil; rw [hnil] at h4; simp at h4
    rw [walkLoop_ok_full 5 base b1 _ none earliest 0 0 hne1 (by omega),
      walkLoop_ok_full 5 base b2 _ b1.getLast? b1.getLast? (0 + b1.length) 0
        hne2 (by omega),
      walkLoop_ok_full 5 base b3 _ b2.getLast? b2.getLast?
        (0 + b1.length + b2.length) 0 hne3 (by omega),
      walkLoop_ok_small 5 base b4 rest b3.getLast? b3.getLast?
        (0 + b1.length + b2.length + b3.length) 0 hne4 (by omega)]
  · intro σ base b rest before earliest total retries hne hlen
    exact walkLoop_ok_small 5 base b rest before earliest total retries hne hlen
  · intro σ getTx b1 b2 b3 b4 hdep h1 h2 h3 h4
    have hfind : ∀ b : List σ, b.find? (txIsDeployment getTx) = none :=
      fun b => List.find?_eq_none.mpr fun x _ => by simp [hdep x]
    have hne1 : b1 ≠ [] := by intro hnil; rw [hnil] at h1; simp at h1
    have hne2 : b2 ≠ [] := by intro hnil; rw [hnil] at h2; simp at h2
    have hne3 : b3 ≠ [] := by intro hnil; rw [hnil] at h3; simp at h3
    have hne4 : b4 ≠ [] := by intro hnil; rw [hnil] at h4; simp at h4
    rw [strictWalk_ok_none getTx b1 _ none 0 hne1 (hfind b1),
      strictWalk_ok_none getTx b2 _ b1.getLast? 0 hne2 (hfind b2),
      strictWalk_ok_none getTx b3 _ b2.getLast? 0 hne3 (hfind b3),
      strictWalk_ok_none getTx b4 _ b3.getLast? 0 hne4 (hfind b4),
      strictWalk_ok_empty getTx [] b4.getLast? 0]

/-- C4 witness: the claim's mocked history through
`pagination_four_batches_cursor_chain`: four batches of 1000, 1000, 1000 and
224 distinct signatures give exactly 4 calls with chained cursors. -/
theorem pagination_four_batches_cursor_chain_witness :
    walkLoop 5 6000 [.ok batch1, .ok batch2, .ok batch3, .ok batch4] none none
        0 0 =
      ⟨[none, batch1.getLast?, batch2.getLast?, batch3.getLast?], [],
        .exhausted batch4.getLast?⟩ :=
  pagination_four_batches_cursor_chain.1 Nat 6000 batch1 batch2 batch3 batch4
    [] none (by simp [batch1]) (by simp [batch2]) (by simp [batch3])
    (by simp [batch4])

set_option maxRecDepth 100000 in
/-- C4 counterexample: on the claim's history — three full batches of 1000
and a final batch of 224, with no deployment transaction anywhere — the
strict implementation issues 5 `listSignatures` calls, not the 4 the claim
states: it has no shorter-than-1000 stop, so after the 224-signature batch it
issues one more call, which returns the empty batch. -/
theorem strict_walk_five_calls_cex :
    (strictWalk noTx [.ok batch1, .ok batch2, .ok batch3, .ok batch4, .ok []]
        none 0).cursors.length = 5 ∧ (5 : Nat) ≠ 4 := by
  refine ⟨by decide, by decide⟩

/-- C1 (amended): what each walk returns. The strict walk returns the first
classified deployment in its scan order, which is newest-first: on a history
given as batches (each newest-first, newest batch first) it returns the
deployment `find?` locates first in the concatenation — the LATEST deployment
in chain history, not the earliest; it returns the earliest one only when
that is the sole deployment the scan meets. The best-effort walk returns the
last signature of the exhausted history — the OLDEST transaction — which is
the earliest deployment's signature only under the documented assumption that
an account's history begins with its deployment. -/
theorem strict_and_best_effort_walk_characterization :
    (∀ (σ : Type) (getTx : σ → Option TransactionRecord) (bs : List (List σ))
        (rest : List (RpcOutcome σ)) (before : Option σ) (retries : Nat)
        (d : σ),
        (∀ b ∈ bs, b ≠ []) →
        bs.flatten.find? (txIsDeployment getTx) = some d →
        (strictWalk getTx (bs.map .ok ++ rest) before retries).result =
          .found d) ∧
      ∀ (σ : Type) (base : Nat) (bs : List (List σ)) (c : List σ)
        (rest : List (RpcOutcome σ)) (before earliest : Option σ)
        (total : Nat),
        (∀ b ∈ bs, b.length = 1000) → c ≠ [] → c.length < 1000 →
        (walkLoop 5 base (bs.map .ok ++ .ok c :: rest) before earliest total
            0).exit =
          .exhausted c.getLast? := by
  constructor
  · intro σ getTx bs
    induction bs with
    | nil =>
      intro rest before retries d _ hfind
      simp at hfind
    | cons b bs ih =>
      intro rest before retries d hne hfind
      have hb : b ≠ [] := hne b (List.mem_cons_self b bs)
      rw [List.flatten_cons, List.find?_append] at hfind
      cases hfb : b.find? (txIsDeployment getTx) with
      | some e =>
        rw [hfb] at hfind
        have hed : e = d := Option.some_inj.mp hfind
        rw [List.map_cons, List.cons_append,
          strictWalk_ok_found getTx b _ before retries e hb hfb, hed]
      | none =>
        rw [hfb, Option.none_or] at hfind
        rw [List.map_cons, List.cons_append,
          strictWalk_ok_none getTx b _ before retries hb hfb]
        exact ih rest b.getLast? retries d
          (fun x hx => hne x (List.mem_cons_of_mem b hx)) hfind
  · intro σ base bs
    induction bs with
    | nil =>
      intro c rest before earliest total _ hcne hclen
      rw [List.map_nil, List.nil_append,
        walkLoop_ok_small 5 base c rest before earliest total 0 hcne hclen]
    | cons b bs ih =>
      intro c rest before earliest total hlen hcne hclen
      have hb : b.length = 1000 := hlen b (List.mem_cons_self b bs)
      have hbne : b ≠ [] := by intro hnil; rw [hnil] at hb; simp at hb
      rw [List.map_cons, List.cons_append,
        walkLoop_ok_full 5 base b _ before earliest total 0 hbne (by omega)]
      exact ih c rest b.getLast? b.getLast? (total + b.length)
        (fun x hx => hlen x (List.mem_cons_of_mem b hx)) hcne hclen

/-- C1 witness: both characterizations at concrete inputs, through
`strict_and_best_effort_walk_characterization`: the strict walk on the
one-batch history [5, 2], where only 2 is a deployment, returns 2; the
best-effort walk on the one-batch history [7, 2, 1] exits with the oldest
signature 1. -/
theorem strict_and_best_effort_walk_characterization_witness :
    (strictWalk onlyTwoDeployTx [.ok [5, 2]] none 0).result = .found 2 ∧
      (walkLoop 5 6000 [.ok [7, 2, 1]] none none 0 0).exit =
        .exhausted (some 1) := by
  constructor
  · exact strict_and_best_effort_walk_characterization.1 Nat onlyTwoDeployTx
      [[5, 2]] [] none 0 2 (by decide) (by decide)
  · exact strict_and_best_effort_walk_characterization.2 Nat 6000 [] [7, 2, 1]
      [] none none 0 (by simp) (by decide) (by decide)

/-- C1 counterexample: the walks do not return the earliest deployment. The
history, newest-first, is [0, 1]: transaction 1 is the oldest. Under
`allDeployTx` both transactions are deployments — the earliest deployment is
1 — yet the strict walk stops at the FIRST classified deployment of its
newest-first scan and returns 0, the latest. Under `newestDeployTx` the only
deployment is 0, yet the best-effort walk's candidate is the oldest signature
1, which is not a deployment at all. -/
theorem strict_walk_returns_newer_deployment_cex :
    txIsDeployment allDeployTx 1 = true ∧
      (strictWalk allDeployTx [.ok [0, 1]] none 0).result = .found 0 ∧
      (0 : Nat) ≠ 1 ∧
      txIsDeployment newestDeployTx 1 = false ∧
      (walkLoop 5 6000 [.ok [0, 1]] none none 0 0).exit =
        .exhausted (some 1) := by
  refine ⟨by decide, by decide, by decide, by decide, by decide⟩

end SolanaDeployTime
